import Mathlib

/-!
Verification of the authenticating protocol bridge (`github.com/eberle1080/mcp`).

The server-side HTTP composition (`Server.HTTP` and `serverDebug`, package
`server`) is embedded directly from the source.  Components whose code lives
outside the provided sources (the in-memory Auth Grant Store, the middleware
chain combinator, the Token Acquisition Engine, the handler-internal cookie
and rehydration logic) are modelled from the specification, each marked
`Modelled from the spec:` in its doc comment.
-/

/-! ## Auth Grant Store -/

/-- Grant lifecycle states.  `Expired` is derived from the clock, so the
stored state is one of the three persistent states. -/
inductive GrantState
  | Pending
  | Active
  | Revoked
deriving DecidableEq, Repr

/-- Modelled from the spec: an `AuthGrant` has an opaque identifier, a subject,
access and refresh credentials, and three independent expiries. -/
structure AuthGrant where
  id : Nat
  subject : String
  accessCred : String
  refreshCred : String
  pendingExpiry : Nat
  accessExpiry : Nat
  refreshExpiry : Nat
  state : GrantState
deriving DecidableEq, Repr

/-- Store-level error taxonomy from the spec: SessionError. -/
inductive SessionError
  | NotFound
  | Expired
  | Revoked
deriving DecidableEq, Repr

/-- Modelled from the spec: the in-memory Auth Grant Store
(`streamauth.NewMemoryStore`, not under the provided sources) with
configurable durations and a grant table; `counter` supplies fresh
identifiers. -/
structure MemoryStore where
  accessDuration : Nat
  refreshDuration : Nat
  pendingDuration : Nat
  grants : List AuthGrant
  counter : Nat
deriving DecidableEq, Repr

/-- Modelled from the spec: `NewMemoryStore` constructs an empty store.  Its
signature is not under the provided sources; parameter roles (access, refresh,
pending) are assigned per the spec durations 30 min access / 24 h refresh /
2 min pending matching the call site in `Server.HTTP`.  Durations are in
seconds. -/
def NewMemoryStore (access refresh pending : Nat) : MemoryStore :=
  { accessDuration := access
    refreshDuration := refresh
    pendingDuration := pending
    grants := []
    counter := 0 }

/-- Look a grant up by identifier. -/
def MemoryStore.find (st : MemoryStore) (id : Nat) : Option AuthGrant :=
  st.grants.find? (fun g => g.id == id)

/-- Rewrite the grant(s) carrying a given identifier in place. -/
def MemoryStore.updateGrant (st : MemoryStore) (id : Nat) (f : AuthGrant → AuthGrant) :
    MemoryStore :=
  { st with grants := st.grants.map (fun g => if g.id == id then f g else g) }

/-- Modelled from the spec: `Create(subject) -> AuthGrant`, state `Pending`,
all three expiries set from the configured durations. -/
def MemoryStore.create (st : MemoryStore) (subject : String) (now : Nat) :
    AuthGrant × MemoryStore :=
  let n := st.counter
  let g : AuthGrant :=
    { id := n
      subject := subject
      accessCred := "access-" ++ toString n
      refreshCred := "refresh-" ++ toString n
      pendingExpiry := now + st.pendingDuration
      accessExpiry := now + st.accessDuration
      refreshExpiry := now + st.refreshDuration
      state := GrantState.Pending }
  (g, { st with grants := g :: st.grants, counter := n + 1 })

/-- Modelled from the spec: `Activate(id) -> error`, failing `NotFound` or
`Expired` when called after `pendingExpiry`; a revoked grant fails closed. -/
def MemoryStore.activate (st : MemoryStore) (id now : Nat) :
    Except SessionError MemoryStore :=
  match st.find id with
  | none => Except.error SessionError.NotFound
  | some g =>
    if g.pendingExpiry < now then Except.error SessionError.Expired
    else if g.state = GrantState.Revoked then Except.error SessionError.Revoked
    else Except.ok (st.updateGrant id (fun g0 => { g0 with state := GrantState.Active }))

/-- Modelled from the spec: `Get(id) -> AuthGrant, error`, failing `NotFound`,
`Expired`, or `Revoked`; after `refreshExpiry` it always fails `Expired`. -/
def MemoryStore.get (st : MemoryStore) (id now : Nat) :
    Except SessionError AuthGrant :=
  match st.find id with
  | none => Except.error SessionError.NotFound
  | some g =>
    if g.refreshExpiry < now then Except.error SessionError.Expired
    else if g.state = GrantState.Revoked then Except.error SessionError.Revoked
    else Except.ok g

/-- Modelled from the spec: `Refresh(id)` extends `accessExpiry`, failing once
`now > refreshExpiry`; a revoked grant fails closed. -/
def MemoryStore.refresh (st : MemoryStore) (id now : Nat) :
    Except SessionError (AuthGrant × MemoryStore) :=
  match st.find id with
  | none => Except.error SessionError.NotFound
  | some g =>
    if g.refreshExpiry < now then Except.error SessionError.Expired
    else if g.state = GrantState.Revoked then Except.error SessionError.Revoked
    else
      Except.ok ({ g with accessExpiry := now + st.accessDuration },
        st.updateGrant id (fun g0 => { g0 with accessExpiry := now + st.accessDuration }))

/-- Modelled from the spec: `Revoke(id) -> error`. -/
def MemoryStore.revoke (st : MemoryStore) (id : Nat) :
    Except SessionError MemoryStore :=
  match st.find id with
  | none => Except.error SessionError.NotFound
  | some _ => Except.ok (st.updateGrant id (fun g0 => { g0 with state := GrantState.Revoked }))

/-- Modelled from the spec: the background sweep removes grants past
`refreshExpiry`. -/
def MemoryStore.sweep (st : MemoryStore) (now : Nat) : MemoryStore :=
  { st with grants := st.grants.filter (fun g => !(g.refreshExpiry < now : Bool)) }

/-- One store operation, with its observation time where relevant. -/
inductive StoreOp
  | create (subject : String) (now : Nat)
  | activate (id now : Nat)
  | get (id now : Nat)
  | refresh (id now : Nat)
  | revoke (id : Nat)
  | sweep (now : Nat)
deriving DecidableEq, Repr

/-- Apply one operation to the store, keeping the old state on error. -/
def stepStore (st : MemoryStore) : StoreOp → MemoryStore
  | StoreOp.create subject now => (st.create subject now).2
  | StoreOp.activate id now =>
    match st.activate id now with
    | Except.ok st' => st'
    | Except.error _ => st
  | StoreOp.get _ _ => st
  | StoreOp.refresh id now =>
    match st.refresh id now with
    | Except.ok (_, st') => st'
    | Except.error _ => st
  | StoreOp.revoke id =>
    match st.revoke id with
    | Except.ok st' => st'
    | Except.error _ => st
  | StoreOp.sweep now => st.sweep now

/-- Run a sequence of store operations. -/
def runOps (st : MemoryStore) (ops : List StoreOp) : MemoryStore :=
  ops.foldl stepStore st

/-- The identifier is dead: it is already used up by the counter, and every
grant carrying it is revoked. -/
def deadId (st : MemoryStore) (id : Nat) : Prop :=
  id < st.counter ∧ ∀ g ∈ st.grants, g.id = id → g.state = GrantState.Revoked

/-- Store well-formedness: every stored grant identifier came from the
counter. -/
def storeWF (st : MemoryStore) : Prop :=
  ∀ g ∈ st.grants, g.id < st.counter

/-- Whether a store result is an error. -/
def isErr {ε α : Type} : Except ε α → Bool
  | Except.error _ => true
  | Except.ok _ => false

/-! ## Middleware Chain -/

/-- The middleware values `Server.HTTP` appends, in the source's vocabulary:
the OAuth2 authorizer, `protocolVersionMiddleware`, the CORS handler, and
`originValidationMiddleware` carrying the configured allow-list. -/
inductive MW
  | authorizer
  | protocolVersion
  | cors
  | originValidation (allowOrigins : List String)
deriving DecidableEq, Repr

/-- The middleware list exactly as `Server.HTTP` builds it: the authorizer
when configured, then the protocol-version middleware, then the CORS handler,
then origin validation when a CORS config is present. -/
def middlewareHandlers (hasAuthorizer : Bool) (corsConfig : Option (List String)) :
    List MW :=
  (if hasAuthorizer then [MW.authorizer] else [])
    ++ [MW.protocolVersion, MW.cors]
    ++ (match corsConfig with
        | some allow => [MW.originValidation allow]
        | none => [])

/-- The request facts the fixed middlewares inspect. -/
structure HttpRequest where
  origin : Option String
  hasCredential : Bool
  protocolVersionOk : Bool
deriving DecidableEq, Repr

/-- Terminal middleware outcomes. -/
inductive Outcome
  | originRejected
  | unauthorized
  | versionRejected
  | handled
deriving DecidableEq, Repr

/-- Modelled from the spec: each middleware either passes the request on
(`none`) or short-circuits with a terminal response (`some`).  Origin
validation rejects cross-origin requests (those carrying an Origin header)
unless allow-listed; the authorizer answers 401 to requests without a valid
credential; the protocol-version middleware rejects mismatched versions; the
CORS middleware only mutates response headers. -/
def mwStep (m : MW) (r : HttpRequest) : Option Outcome :=
  match m with
  | MW.authorizer =>
    if r.hasCredential then none else some Outcome.unauthorized
  | MW.protocolVersion =>
    if r.protocolVersionOk then none else some Outcome.versionRejected
  | MW.cors => none
  | MW.originValidation allow =>
    match r.origin with
    | none => none
    | some o => if o ∈ allow then none else some Outcome.originRejected

/-- Modelled from the spec: `ChainMiddlewareHandlers` is not under the
provided sources; per the spec contract the chain applies the middlewares
left to right, so the first middleware in the list sees the request first.
The result records the middlewares actually invoked, in order, and the
outcome. -/
def runChain : List MW → HttpRequest → List MW × Outcome
  | [], _ => ([], Outcome.handled)
  | m :: rest, r =>
    match mwStep m r with
    | some out => ([m], out)
    | none =>
      let res := runChain rest r
      (m :: res.1, res.2)

/-! ## Server.HTTP embedding -/

/-- A `Set-Cookie` value as configured via `WithBFFAuthCookie`. -/
structure BFFAuthCookie where
  name : String
  httpOnly : Bool
deriving DecidableEq, Repr

/-- The options `Server.HTTP` passes to a transport handler. -/
structure HandlerOptions where
  uri : String
  messageURI : Option String
  authStore : Option MemoryStore
  bffAuthCookie : Option BFFAuthCookie
  rehydrateOnHandshake : Bool
  sessionStoreSet : Bool
deriving DecidableEq, Repr

/-- What a mux route resolves to. -/
inductive RouteTarget
  | customHandler
  | protectedResources
  | sseChain
  | streamChain
  | rootRedirect
deriving DecidableEq, Repr

/-- The two verbose startup lines `Server.HTTP` prints, kept structured. -/
inductive LogEntry
  | httpInfo (addr sseURI msgURI streamURI : String)
  | bffInfo (memStore : Bool) (authCookie : String) (rehydrate : Bool)
deriving DecidableEq, Repr

/-- The `Server` fields `HTTP` reads; empty string means unset, and the
`has...` flags model nil-ness of the corresponding pointers. -/
structure ServerConfig where
  addr : String
  sseURI : String
  sseMessageURI : String
  streamableURI : String
  useStreamableHTTP : Bool
  rootRedirect : Bool
  customHTTPHandlers : List String
  hasProtectedResourcesHandler : Bool
  hasAuthorizer : Bool
  hasCorsConfig : Bool
  corsAllowOrigins : List String
  hasSessionStore : Bool
deriving DecidableEq, Repr

/-- Everything observable that `Server.HTTP` produces: the returned server's
address, the resolved endpoint paths, the default BFF auth store and cookie
name it installs, the startup log lines, the options given to both handlers,
the middleware list, and the mux routes in registration order. -/
structure HTTPResult where
  addr : String
  sseURI : String
  sseMessageURI : String
  streamableURI : String
  installedStore : Option MemoryStore
  installedCookieName : Option String
  logs : List LogEntry
  sseOptions : HandlerOptions
  streamableOptions : HandlerOptions
  middlewares : List MW
  routes : List (String × RouteTarget)
deriving DecidableEq, Repr

/-- `serverDebug` from the source: trim and lowercase `MCP_DEBUG`; enabled
unless the result is empty, "0", or "false". -/
def serverDebug (env : String) : Bool :=
  let v := (env.trim).toLower
  !(v == "") && !(v == "0") && !(v == "false")

/-- `Server.HTTP` from the source: resolve the bind address (argument, then
server field, then the localhost default), default the endpoint paths, build
and install the default in-memory BFF auth store and cookie name, emit the
debug log lines, assemble both handlers' options, collect the middleware
list, and register the mux routes. -/
def serverHTTP (s : ServerConfig) (addrArg : String) (mcpDebug : String) : HTTPResult :=
  let a1 := if addrArg = "" then s.addr else addrArg
  let addr := if a1 = "" then "127.0.0.1:5000" else a1
  let sseURI := if s.sseURI = "" then "/sse" else s.sseURI
  let sseMessageURI := if s.sseMessageURI = "" then "/message" else s.sseMessageURI
  let streamableURI := if s.streamableURI = "" then "/mcp" else s.streamableURI
  let memAuth := NewMemoryStore 1800 86400 120
  let logs :=
    if serverDebug mcpDebug then
      [LogEntry.httpInfo addr sseURI sseMessageURI streamableURI,
       LogEntry.bffInfo true "BFF-Auth-Session" true]
    else []
  let sseOpts : HandlerOptions :=
    { uri := sseURI
      messageURI := some sseMessageURI
      authStore := some memAuth
      bffAuthCookie := some { name := "BFF-Auth-Session", httpOnly := true }
      rehydrateOnHandshake := true
      sessionStoreSet := s.hasSessionStore }
  let streamOpts : HandlerOptions :=
    { uri := streamableURI
      messageURI := none
      authStore := some memAuth
      bffAuthCookie := some { name := "BFF-Auth-Session", httpOnly := true }
      rehydrateOnHandshake := true
      sessionStoreSet := s.hasSessionStore }
  let middlewares :=
    middlewareHandlers s.hasAuthorizer
      (if s.hasCorsConfig then some s.corsAllowOrigins else none)
  let routes :=
    (s.customHTTPHandlers.map (fun p => (p, RouteTarget.customHandler)))
      ++ (if s.hasProtectedResourcesHandler then
            [("/.well-known/oauth-protected-resource", RouteTarget.protectedResources)]
          else [])
      ++ [(sseURI, RouteTarget.sseChain), (sseMessageURI, RouteTarget.sseChain),
          (streamableURI, RouteTarget.streamChain)]
      ++ (if s.rootRedirect then [("/", RouteTarget.rootRedirect)] else [])
  { addr := addr
    sseURI := sseURI
    sseMessageURI := sseMessageURI
    streamableURI := streamableURI
    installedStore := some memAuth
    installedCookieName := some "BFF-Auth-Session"
    logs := logs
    sseOptions := sseOpts
    streamableOptions := streamOpts
    middlewares := middlewares
    routes := routes }

/-! ## BFF cookie and rehydration -/

/-- A Set-Cookie header as issued on handshake. -/
structure SetCookieHeader where
  name : String
  value : Nat
  httpOnly : Bool
deriving DecidableEq, Repr

/-- A session bound to a transport connection. -/
structure Session where
  transport : Nat
  grant : Option AuthGrant
deriving DecidableEq, Repr

/-- Modelled from the spec: the handshake sets the BFF auth cookie whose
value is only the opaque grant identifier — the access and refresh
credentials are not placed in the cookie. -/
def handshakeSetCookie (c : BFFAuthCookie) (g : AuthGrant) : SetCookieHeader :=
  { name := c.name, value := g.id, httpOnly := c.httpOnly }

/-- Modelled from the spec: rehydration on handshake looks the Auth Grant
Store up under the cookie's identifier and re-binds the grant to the new
transport connection. -/
def rehydrateSession (st : MemoryStore) (cookieVal now conn : Nat) : Option Session :=
  match st.get cookieVal now with
  | Except.ok g => some { transport := conn, grant := some g }
  | Except.error _ => none

/-! ## Token Acquisition Engine -/

/-- A remote answer: success with a body, or HTTP 401. -/
inductive RemoteResp
  | ok (body : String)
  | unauthorized
deriving DecidableEq, Repr

/-- Client-side error taxonomy from the spec: AuthError. -/
inductive AuthError
  | GrantNotFound
  | GrantExpired
  | GrantRevoked
  | DiscoveryFailed
  | AcquisitionFailed
  | AcquisitionTimeout
deriving DecidableEq, Repr

/-- Modelled from the spec: the Token Acquisition Engine (not under the
provided sources) sends the request with any cached token; on a 401 it runs
discovery and the configured acquisition flow (`acquire`, `none` when the
flow fails) and retries the original request exactly once with the fresh
token; a second 401 is surfaced as `AcquisitionFailed`, never retried.  The
first component counts the attempts issued to the remote. -/
def sendWithAuth (remote : Option String → Nat → RemoteResp)
    (cached : Option String) (acquire : Option String) :
    Nat × Except AuthError String :=
  match remote cached 0 with
  | RemoteResp.ok b => (1, Except.ok b)
  | RemoteResp.unauthorized =>
    match acquire with
    | none => (1, Except.error AuthError.AcquisitionFailed)
    | some tok =>
      match remote (some tok) 1 with
      | RemoteResp.ok b => (2, Except.ok b)
      | RemoteResp.unauthorized => (2, Except.error AuthError.AcquisitionFailed)

/-! ## Concrete instances used by counterexamples and witnesses -/

/-- A server with an authorizer and a CORS config (empty allow-list), no
custom paths, no protected-resources handler, nothing else configured. -/
def cfg0 : ServerConfig :=
  { addr := ""
    sseURI := ""
    sseMessageURI := ""
    streamableURI := ""
    useStreamableHTTP := false
    rootRedirect := false
    customHTTPHandlers := []
    hasProtectedResourcesHandler := false
    hasAuthorizer := true
    hasCorsConfig := true
    corsAllowOrigins := []
    hasSessionStore := false }

/-- Like `cfg0` but with a protected-resources handler configured. -/
def cfgW : ServerConfig :=
  { cfg0 with hasProtectedResourcesHandler := true }

/-- A cross-origin request from a non-allow-listed origin, carrying no
credential and a valid protocol version. -/
def badReq : HttpRequest :=
  { origin := some "https://evil.example"
    hasCredential := false
    protocolVersionOk := true }

/-- The store right after `Create("alice")` at time 0 on the default
store. -/
def wStore : MemoryStore :=
  ((NewMemoryStore 1800 86400 120).create "alice" 0).2

/-- `wStore` after revoking grant 0. -/
def wRevoked : MemoryStore :=
  wStore.updateGrant 0 (fun g0 => { g0 with state := GrantState.Revoked })

/-- The grant created by `Create("alice")` at time 0 on the default store. -/
def wGrant : AuthGrant :=
  ((NewMemoryStore 1800 86400 120).create "alice" 0).1

/-! ## Theorems -/

/-- Claim C10: for every call to `Server.HTTP` with an empty `addr` argument
and no address configured on the server, the returned server's address is
`127.0.0.1:5000`, so by default the server binds only to localhost. -/
theorem default_addr_localhost (s : ServerConfig) (e : String) (h : s.addr = "") :
    (serverHTTP s "" e).addr = "127.0.0.1:5000" := by
  simp [serverHTTP, h]

/-- Witness for `default_addr_localhost` at the concrete configuration
`cfg0`. -/
theorem default_addr_localhost_witness :
    (serverHTTP cfg0 "" "").addr = "127.0.0.1:5000" :=
  default_addr_localhost cfg0 "" rfl

/-- Claim C2 (counterexample): called on a server whose caller supplied no
store at all, `Server.HTTP` nevertheless installs a process-wide default
in-memory BFF auth store, so the claim that it installs no store the caller
did not supply is false. -/
theorem default_store_counterexample :
    cfg0.hasSessionStore = false
    ∧ (serverHTTP cfg0 "" "").installedStore = some (NewMemoryStore 1800 86400 120) :=
  ⟨rfl, rfl⟩

/-- Claim C2 (amended): for every server configuration, `Server.HTTP`
constructs the default in-memory store (30 min access / 24 h refresh / 2 min
pending) and installs it both as the process-wide default BFF auth store and
as the auth store of both transport handlers. -/
theorem default_store_always_installed (s : ServerConfig) (a e : String) :
    (serverHTTP s a e).installedStore = some (NewMemoryStore 1800 86400 120)
    ∧ (serverHTTP s a e).sseOptions.authStore = some (NewMemoryStore 1800 86400 120)
    ∧ (serverHTTP s a e).streamableOptions.authStore = some (NewMemoryStore 1800 86400 120) :=
  ⟨rfl, rfl, rfl⟩

/-- Claim C7: verbose startup logging is enabled exactly when the trimmed,
lowercased `MCP_DEBUG` value is non-empty and neither "0" nor "false"; when
enabled, `Server.HTTP` logs the bound address and the configured SSE, message
and streamable endpoint paths (and the BFF auth line). -/
theorem debug_toggle_iff (env : String) (s : ServerConfig) (a : String) :
    (serverDebug env = true ↔
      ((env.trim).toLower ≠ "" ∧ (env.trim).toLower ≠ "0" ∧ (env.trim).toLower ≠ "false"))
    ∧ ((serverHTTP s a env).logs =
        if serverDebug env then
          [LogEntry.httpInfo (serverHTTP s a env).addr (serverHTTP s a env).sseURI
            (serverHTTP s a env).sseMessageURI (serverHTTP s a env).streamableURI,
           LogEntry.bffInfo true "BFF-Auth-Session" true]
        else []) := by
  constructor
  · simp [serverDebug, and_assoc]
  · rfl

/-- Witness for `debug_toggle_iff` at `MCP_DEBUG="1"` and the concrete
configuration `cfg0`. -/
theorem debug_toggle_iff_witness :
    (serverDebug "1" = true ↔
      (("1".trim).toLower ≠ "" ∧ ("1".trim).toLower ≠ "0" ∧ ("1".trim).toLower ≠ "false"))
    ∧ ((serverHTTP cfg0 "" "1").logs =
        if serverDebug "1" then
          [LogEntry.httpInfo (serverHTTP cfg0 "" "1").addr (serverHTTP cfg0 "" "1").sseURI
            (serverHTTP cfg0 "" "1").sseMessageURI (serverHTTP cfg0 "" "1").streamableURI,
           LogEntry.bffInfo true "BFF-Auth-Session" true]
        else []) :=
  debug_toggle_iff "1" cfg0 ""

/-- Claim C8 (counterexample): with no base paths configured and no
protected-resources handler installed, `Server.HTTP` does not mount the
discovery metadata document at `/.well-known/oauth-protected-resource`, so
the claim that it always mounts it is false. -/
theorem wellknown_mount_counterexample :
    cfg0.sseURI = "" ∧ cfg0.sseMessageURI = "" ∧ cfg0.streamableURI = ""
    ∧ ∀ pr ∈ (serverHTTP cfg0 "" "").routes,
        pr.1 ≠ "/.well-known/oauth-protected-resource" := by
  refine ⟨rfl, rfl, rfl, ?_⟩
  decide

/-- Claim C8 (amended): with no base paths configured, `Server.HTTP` mounts
the SSE chain at `/sse` and `/message` and the streamable chain at `/mcp`;
the discovery metadata document is mounted at
`/.well-known/oauth-protected-resource` exactly when a protected-resources
handler is configured. -/
theorem default_mounts_amended (s : ServerConfig) (a e : String)
    (h1 : s.sseURI = "") (h2 : s.sseMessageURI = "") (h3 : s.streamableURI = "") :
    ("/sse", RouteTarget.sseChain) ∈ (serverHTTP s a e).routes
    ∧ ("/message", RouteTarget.sseChain) ∈ (serverHTTP s a e).routes
    ∧ ("/mcp", RouteTarget.streamChain) ∈ (serverHTTP s a e).routes
    ∧ (("/.well-known/oauth-protected-resource", RouteTarget.protectedResources)
        ∈ (serverHTTP s a e).routes ↔ s.hasProtectedResourcesHandler = true) := by
  refine ⟨?_, ?_, ?_, ?_⟩ <;>
    cases hp : s.hasProtectedResourcesHandler <;>
      cases hr : s.rootRedirect <;>
        simp [serverHTTP, h1, h2, h3, hp, hr, List.mem_append, List.mem_map]

/-- Witness for `default_mounts_amended` at the concrete configuration
`cfgW`, which has a protected-resources handler. -/
theorem default_mounts_amended_witness :
    ("/sse", RouteTarget.sseChain) ∈ (serverHTTP cfgW "" "").routes
    ∧ ("/message", RouteTarget.sseChain) ∈ (serverHTTP cfgW "" "").routes
    ∧ ("/mcp", RouteTarget.streamChain) ∈ (serverHTTP cfgW "" "").routes
    ∧ (("/.well-known/oauth-protected-resource", RouteTarget.protectedResources)
        ∈ (serverHTTP cfgW "" "").routes ↔ cfgW.hasProtectedResourcesHandler = true) :=
  default_mounts_amended cfgW "" "" rfl rfl rfl

/-- Claim C1 (counterexample): `Server.HTTP` appends the authorizer first and
origin validation last, so under the chain semantics in which the first
middleware in the list sees the request first, a cross-origin request from a
non-allow-listed origin does invoke the authorizer (which answers 401) and is
not rejected by origin validation. -/
theorem chain_order_counterexample :
    badReq.origin = some "https://evil.example"
    ∧ "https://evil.example" ∉ cfg0.corsAllowOrigins
    ∧ MW.authorizer ∈ (runChain (serverHTTP cfg0 "" "").middlewares badReq).1
    ∧ (runChain (serverHTTP cfg0 "" "").middlewares badReq).2 ≠ Outcome.originRejected := by
  decide

/-- Claim C1 (amended): the claimed property holds only under the reversed
chain semantics, where the last middleware in the list sees the request
first: then, for every server with a CORS config, a cross-origin request
from a non-allow-listed origin is rejected by origin validation and the
authorizer is never invoked. -/
theorem chain_order_amended (hasAuth : Bool) (allow : List String)
    (r : HttpRequest) (o : String)
    (ho : r.origin = some o) (hno : o ∉ allow) :
    (runChain (middlewareHandlers hasAuth (some allow)).reverse r).2 = Outcome.originRejected
    ∧ MW.authorizer ∉ (runChain (middlewareHandlers hasAuth (some allow)).reverse r).1 := by
  cases hasAuth <;>
    simp [middlewareHandlers, runChain, mwStep, ho, hno]

/-- Witness for `chain_order_amended` at the concrete request `badReq` and a
non-trivial allow-list. -/
theorem chain_order_amended_witness :
    (runChain (middlewareHandlers true (some ["https://app.example"])).reverse badReq).2
        = Outcome.originRejected
    ∧ MW.authorizer ∉
        (runChain (middlewareHandlers true (some ["https://app.example"])).reverse badReq).1 :=
  chain_order_amended true ["https://app.example"] badReq "https://evil.example" rfl (by decide)

/-- Claim C3: against a remote that always answers 401, the Token Acquisition
Engine issues at most 2 attempts (the original plus exactly one retry after
acquiring a fresh token) and surfaces the second 401 as `AcquisitionFailed`;
in general no request ever leads to more than 2 attempts. -/
theorem retry_once_on_401 (remote : Option String → Nat → RemoteResp)
    (cached acquire : Option String)
    (h : ∀ t n, remote t n = RemoteResp.unauthorized) :
    (sendWithAuth remote cached acquire).1 ≤ 2
    ∧ (sendWithAuth remote cached acquire).2 = Except.error AuthError.AcquisitionFailed
    ∧ ∀ (r : Option String → Nat → RemoteResp) (c a : Option String),
        (sendWithAuth r c a).1 ≤ 2 := by
  have key : sendWithAuth remote cached acquire =
      match acquire with
      | none => (1, Except.error AuthError.AcquisitionFailed)
      | some _ => (2, Except.error AuthError.AcquisitionFailed) := by
    unfold sendWithAuth
    simp only [h]
  refine ⟨?_, ?_, ?_⟩
  · rw [key]; cases acquire <;> simp
  · rw [key]; cases acquire <;> rfl
  · intro r c a
    unfold sendWithAuth
    split
    · simp
    · split
      · simp
      · split <;> simp

/-- Witness for `retry_once_on_401` against the constant-401 remote. -/
theorem retry_once_on_401_witness :
    (sendWithAuth (fun _ _ => RemoteResp.unauthorized) none (some "tok")).1 ≤ 2
    ∧ (sendWithAuth (fun _ _ => RemoteResp.unauthorized) none (some "tok")).2
        = Except.error AuthError.AcquisitionFailed :=
  ⟨(retry_once_on_401 (fun _ _ => RemoteResp.unauthorized) none (some "tok")
      (fun _ _ => rfl)).1,
   (retry_once_on_401 (fun _ _ => RemoteResp.unauthorized) none (some "tok")
      (fun _ _ => rfl)).2.1⟩

/-- Claim C4: every created grant satisfies
`pendingExpiry < accessExpiry < refreshExpiry` whenever the configured
durations are ordered; `Get` at any time after `refreshExpiry` fails
`Expired`; and `Server.HTTP` installs the default store with durations
2 min pending / 30 min access / 24 h refresh. -/
theorem grant_expiry_invariant (st : MemoryStore) (subject : String) (now : Nat)
    (h1 : st.pendingDuration < st.accessDuration)
    (h2 : st.accessDuration < st.refreshDuration) :
    ((st.create subject now).1.pendingExpiry < (st.create subject now).1.accessExpiry
      ∧ (st.create subject now).1.accessExpiry < (st.create subject now).1.refreshExpiry)
    ∧ (∀ t, (st.create subject now).1.refreshExpiry < t →
        (st.create subject now).2.get (st.create subject now).1.id t
          = Except.error SessionError.Expired)
    ∧ (∀ (s : ServerConfig) (a e : String),
        (serverHTTP s a e).installedStore = some (NewMemoryStore 1800 86400 120))
    ∧ (NewMemoryStore 1800 86400 120).pendingDuration = 120
    ∧ (NewMemoryStore 1800 86400 120).accessDuration = 1800
    ∧ (NewMemoryStore 1800 86400 120).refreshDuration = 86400 := by
  refine ⟨⟨?_, ?_⟩, ?_, fun s a e => rfl, rfl, rfl, rfl⟩
  · simp only [MemoryStore.create]
    omega
  · simp only [MemoryStore.create]
    omega
  · intro t ht
    have hfind : ((st.create subject now).2).find (st.create subject now).1.id
        = some (st.create subject now).1 := by
      simp [MemoryStore.create, MemoryStore.find]
    simp only [MemoryStore.get, hfind]
    rw [if_pos ht]

/-- Witness for `grant_expiry_invariant` on the default store at time 0. -/
theorem grant_expiry_invariant_witness :
    (wGrant.pendingExpiry < wGrant.accessExpiry
      ∧ wGrant.accessExpiry < wGrant.refreshExpiry)
    ∧ wStore.get wGrant.id 86401 = Except.error SessionError.Expired
    ∧ (serverHTTP cfg0 "" "").installedStore = some (NewMemoryStore 1800 86400 120) := by
  obtain ⟨ha, hb, hc, _⟩ :=
    grant_expiry_invariant (NewMemoryStore 1800 86400 120) "alice" 0
      (by decide) (by decide)
  exact ⟨ha, hb 86401 (by decide), hc cfg0 "" ""⟩

/-- Claim C9: `Activate` fails `NotFound` or `Expired` whenever called after
`pendingExpiry`; on a grant created at time 0 with the default durations,
`Activate` at t = 90 s succeeds and `Activate` at t = 121 s fails
`Expired`. -/
theorem activate_window (st : MemoryStore) (id now : Nat)
    (h : ∀ g, st.find id = some g → g.pendingExpiry < now) :
    (st.activate id now = Except.error SessionError.NotFound
      ∨ st.activate id now = Except.error SessionError.Expired)
    ∧ (∃ st2, wStore.activate wGrant.id 90 = Except.ok st2)
    ∧ wStore.activate wGrant.id 121 = Except.error SessionError.Expired := by
  refine ⟨?_, ⟨_, rfl⟩, rfl⟩
  rcases hfind : st.find id with _ | g
  · left
    simp only [MemoryStore.activate, hfind]
  · right
    simp only [MemoryStore.activate, hfind]
    rw [if_pos (h g hfind)]

/-- Witness for `activate_window` on the revocation-free concrete store at
t = 121 s. -/
theorem activate_window_witness :
    (wStore.activate 0 121 = Except.error SessionError.NotFound
      ∨ wStore.activate 0 121 = Except.error SessionError.Expired)
    ∧ (∃ st2, wStore.activate wGrant.id 90 = Except.ok st2)
    ∧ wStore.activate wGrant.id 121 = Except.error SessionError.Expired := by
  have h : ∀ g, wStore.find 0 = some g → g.pendingExpiry < 121 := by
    intro g hg
    have hg0 : some wGrant = some g := by rw [← hg]; rfl
    cases hg0
    decide
  exact activate_window wStore 0 121 h

/-- Claim C6: both transport handlers are configured with the cookie
`BFF-Auth-Session`, `HttpOnly`, and handshake rehydration, backed by the
installed store; the handshake cookie's value is only the opaque grant
identifier; and rehydration looks the store up under that identifier and
re-binds the grant to the new transport connection. -/
theorem bff_cookie_config (s : ServerConfig) (a e : String) :
    (serverHTTP s a e).sseOptions.bffAuthCookie
        = some { name := "BFF-Auth-Session", httpOnly := true }
    ∧ (serverHTTP s a e).streamableOptions.bffAuthCookie
        = some { name := "BFF-Auth-Session", httpOnly := true }
    ∧ (serverHTTP s a e).sseOptions.rehydrateOnHandshake = true
    ∧ (serverHTTP s a e).streamableOptions.rehydrateOnHandshake = true
    ∧ (serverHTTP s a e).installedCookieName = some "BFF-Auth-Session"
    ∧ (∀ (c : BFFAuthCookie) (g : AuthGrant),
        (handshakeSetCookie c g).name = c.name
        ∧ (handshakeSetCookie c g).httpOnly = c.httpOnly
        ∧ (handshakeSetCookie c g).value = g.id)
    ∧ (∀ (st : MemoryStore) (v now conn : Nat) (g : AuthGrant),
        st.get v now = Except.ok g →
        rehydrateSession st v now conn = some { transport := conn, grant := some g }) := by
  refine ⟨rfl, rfl, rfl, rfl, rfl, fun c g => ⟨rfl, rfl, rfl⟩, ?_⟩
  intro st v now conn g hget
  simp only [rehydrateSession, hget]

/-- Witness for `bff_cookie_config` at `cfg0`, with rehydration recovering the
concrete grant `wGrant` on a new connection. -/
theorem bff_cookie_config_witness :
    (serverHTTP cfg0 "" "").sseOptions.bffAuthCookie
        = some { name := "BFF-Auth-Session", httpOnly := true }
    ∧ (serverHTTP cfg0 "" "").streamableOptions.bffAuthCookie
        = some { name := "BFF-Auth-Session", httpOnly := true }
    ∧ (handshakeSetCookie { name := "BFF-Auth-Session", httpOnly := true } wGrant).value
        = wGrant.id
    ∧ rehydrateSession wStore wGrant.id 100 7
        = some { transport := 7, grant := some wGrant } := by
  obtain ⟨h1, h2, _, _, _, h6, h7⟩ := bff_cookie_config cfg0 "" ""
  exact ⟨h1, h2, (h6 { name := "BFF-Auth-Session", httpOnly := true } wGrant).2.2,
    h7 wStore wGrant.id 100 7 wGrant rfl⟩

/-- Unfolded form of a successful lookup. -/
theorem find_eq_find? (st : MemoryStore) (id : Nat) :
    st.find id = st.grants.find? (fun g => g.id == id) := rfl

/-- A successful lookup returns a member carrying the identifier. -/
theorem find_some_facts (st : MemoryStore) (id : Nat) (g : AuthGrant)
    (hfind : st.find id = some g) : g.id = id ∧ g ∈ st.grants := by
  rw [find_eq_find?] at hfind
  have hp := List.find?_some hfind
  have hm := List.mem_of_find?_eq_some hfind
  exact ⟨eq_of_beq hp, hm⟩

/-- Updating grants with an identifier-preserving function that keeps
revoked grants revoked (at least on the dead identifier) preserves
`deadId`. -/
theorem deadId_updateGrant (st : MemoryStore) (id tid : Nat) (f : AuthGrant → AuthGrant)
    (hid : ∀ g, (f g).id = g.id)
    (hstate : ∀ g, g.id = id → (g.id == tid) = true →
      g.state = GrantState.Revoked → (f g).state = GrantState.Revoked)
    (h : deadId st id) : deadId (st.updateGrant tid f) id := by
  obtain ⟨hc, hg⟩ := h
  refine ⟨hc, ?_⟩
  intro g hmem hgid
  simp only [MemoryStore.updateGrant, List.mem_map] at hmem
  obtain ⟨g0, hg0mem, heq⟩ := hmem
  by_cases hb : (g0.id == tid) = true
  · rw [if_pos hb] at heq
    subst heq
    have hg0id : g0.id = id := by rw [← hid g0]; exact hgid
    exact hstate g0 hg0id hb (hg g0 hg0mem hg0id)
  · rw [if_neg hb] at heq
    subst heq
    exact hg g0 hg0mem hgid

/-- A dead identifier stays dead under every store operation. -/
theorem deadId_stepStore (st : MemoryStore) (id : Nat) (op : StoreOp)
    (h : deadId st id) : deadId (stepStore st op) id := by
  obtain ⟨hc, hg⟩ := h
  cases op with
  | create subject now =>
    refine ⟨Nat.lt_succ_of_lt hc, ?_⟩
    intro g hmem hgid
    simp only [stepStore, MemoryStore.create, List.mem_cons] at hmem
    rcases hmem with hgeq | hmemold
    · subst hgeq
      simp only at hgid
      omega
    · exact hg g hmemold hgid
  | activate aid anow =>
    rcases hact : st.activate aid anow with e | st'
    · simpa only [stepStore, hact] using ⟨hc, hg⟩
    · simp only [stepStore, hact]
      unfold MemoryStore.activate at hact
      split at hact
      · cases hact
      · rename_i g hfind
        split at hact
        · cases hact
        · split at hact
          · cases hact
          · rename_i hp hrv
            cases hact
            obtain ⟨hgid, hgmem⟩ := find_some_facts st aid g hfind
            have htid : aid ≠ id := by
              intro hEq
              subst hEq
              exact hrv (hg g hgmem hgid)
            refine deadId_updateGrant st id aid _ (fun g0 => rfl) ?_ ⟨hc, hg⟩
            intro g0 h1 h2 _
            exact absurd ((eq_of_beq h2).symm.trans h1) htid
  | get gid gnow => exact ⟨hc, hg⟩
  | refresh rid rnow =>
    rcases hrf : st.refresh rid rnow with e | pr
    · simpa only [stepStore, hrf] using ⟨hc, hg⟩
    · obtain ⟨g', st'⟩ := pr
      simp only [stepStore, hrf]
      unfold MemoryStore.refresh at hrf
      split at hrf
      · cases hrf
      · rename_i g hfind
        split at hrf
        · cases hrf
        · split at hrf
          · cases hrf
          · rename_i hr hrv
            rw [Except.ok.injEq, Prod.mk.injEq] at hrf
            rw [← hrf.2]
            refine deadId_updateGrant st id rid _ (fun g0 => rfl) ?_ ⟨hc, hg⟩
            intro g0 _ _ h3
            exact h3
  | revoke vid =>
    rcases hrv : st.revoke vid with e | st'
    · simpa only [stepStore, hrv] using ⟨hc, hg⟩
    · simp only [stepStore, hrv]
      unfold MemoryStore.revoke at hrv
      split at hrv
      · cases hrv
      · cases hrv
        refine deadId_updateGrant st id vid _ (fun g0 => rfl) ?_ ⟨hc, hg⟩
        intro g0 _ _ _
        rfl
  | sweep snow =>
    refine ⟨hc, ?_⟩
    intro g hmem hgid
    simp only [stepStore, MemoryStore.sweep, List.mem_filter] at hmem
    exact hg g hmem.1 hgid

/-- A dead identifier stays dead under every sequence of store operations. -/
theorem deadId_runOps (st : MemoryStore) (id : Nat) (ops : List StoreOp)
    (h : deadId st id) : deadId (runOps st ops) id := by
  induction ops generalizing st with
  | nil => exact h
  | cons op ops ih => exact ih (stepStore st op) (deadId_stepStore st id op h)

/-- A successful `Revoke` on a well-formed store leaves the identifier
dead. -/
theorem revoke_ok_deadId (st st' : MemoryStore) (id : Nat)
    (hwf : storeWF st) (hrev : st.revoke id = Except.ok st') : deadId st' id := by
  unfold MemoryStore.revoke at hrev
  split at hrev
  · cases hrev
  · rename_i g hfind
    cases hrev
    obtain ⟨hgid, hgmem⟩ := find_some_facts st id g hfind
    refine ⟨hgid ▸ hwf g hgmem, ?_⟩
    intro g' hmem hgid'
    simp only [MemoryStore.updateGrant, List.mem_map] at hmem
    obtain ⟨g0, hg0mem, heq⟩ := hmem
    by_cases hb : (g0.id == id) = true
    · rw [if_pos hb] at heq
      subst heq
      rfl
    · rw [if_neg hb] at heq
      subst heq
      exact absurd (beq_iff_eq.mpr hgid') hb

/-- `Get` always fails on a dead identifier. -/
theorem deadId_get_isErr (st : MemoryStore) (id now : Nat) (h : deadId st id) :
    isErr (st.get id now) = true := by
  obtain ⟨_, hg⟩ := h
  unfold MemoryStore.get
  rcases hfind : st.find id with _ | g
  · rfl
  · obtain ⟨h1, h2⟩ := find_some_facts st id g hfind
    have hrv : g.state = GrantState.Revoked := hg g h2 h1
    by_cases hr : g.refreshExpiry < now
    · simp [hr, isErr]
    · simp [hr, hrv, isErr]

/-- `Activate` always fails on a dead identifier. -/
theorem deadId_activate_isErr (st : MemoryStore) (id now : Nat) (h : deadId st id) :
    isErr (st.activate id now) = true := by
  obtain ⟨_, hg⟩ := h
  unfold MemoryStore.activate
  rcases hfind : st.find id with _ | g
  · rfl
  · obtain ⟨h1, h2⟩ := find_some_facts st id g hfind
    have hrv : g.state = GrantState.Revoked := hg g h2 h1
    by_cases hp : g.pendingExpiry < now
    · simp [hp, isErr]
    · simp [hp, hrv, isErr]

/-- `Refresh` always fails on a dead identifier. -/
theorem deadId_refresh_isErr (st : MemoryStore) (id now : Nat) (h : deadId st id) :
    isErr (st.refresh id now) = true := by
  obtain ⟨_, hg⟩ := h
  unfold MemoryStore.refresh
  rcases hfind : st.find id with _ | g
  · rfl
  · obtain ⟨h1, h2⟩ := find_some_facts st id g hfind
    have hrv : g.state = GrantState.Revoked := hg g h2 h1
    by_cases hr : g.refreshExpiry < now
    · simp [hr, isErr]
    · simp [hr, hrv, isErr]

/-- Claim C5: revocation is terminal — once `Revoke` has succeeded on a
well-formed store, every subsequent `Get`, `Activate`, or `Refresh` under
that grant's identifier fails, whatever sequence of store operations runs in
between. -/
theorem revoke_terminal (st st' : MemoryStore) (id : Nat)
    (hwf : storeWF st) (hrev : st.revoke id = Except.ok st')
    (ops : List StoreOp) (now : Nat) :
    isErr ((runOps st' ops).get id now) = true
    ∧ isErr ((runOps st' ops).activate id now) = true
    ∧ isErr ((runOps st' ops).refresh id now) = true := by
  have hd : deadId (runOps st' ops) id :=
    deadId_runOps st' id ops (revoke_ok_deadId st st' id hwf hrev)
  exact ⟨deadId_get_isErr _ id now hd, deadId_activate_isErr _ id now hd,
    deadId_refresh_isErr _ id now hd⟩

/-- Witness for `revoke_terminal`: grant 0 is created and revoked, a later
create, activate, refresh and sweep run, and all three operations on
identifier 0 still fail. -/
theorem revoke_terminal_witness :
    isErr ((runOps wRevoked [StoreOp.create "bob" 5, StoreOp.activate 0 10,
        StoreOp.refresh 0 20, StoreOp.sweep 30]).get 0 40) = true
    ∧ isErr ((runOps wRevoked [StoreOp.create "bob" 5, StoreOp.activate 0 10,
        StoreOp.refresh 0 20, StoreOp.sweep 30]).activate 0 40) = true
    ∧ isErr ((runOps wRevoked [StoreOp.create "bob" 5, StoreOp.activate 0 10,
        StoreOp.refresh 0 20, StoreOp.sweep 30]).refresh 0 40) = true :=
  revoke_terminal wStore wRevoked 0 (by unfold storeWF; decide) rfl
    [StoreOp.create "bob" 5, StoreOp.activate 0 10,
     StoreOp.refresh 0 20, StoreOp.sweep 30] 40
